import Mathlib

/-!
Verification development for the `musicbrainz_rust` XML data-binding layer.

The Rust sources are shallowly embedded: every decoder interacts with the
XML document only through the `XPathReader::evaluate` oracle, so a reader
is modelled as a finite table from xpath-expression strings to the values
the oracle would return, and each `from_xml` function is translated
step-by-step (preserving the evaluation order of the Rust code, including
the order of struct-literal field expressions and the fail-fast `?`
operator, modelled by `Except` bind).
-/

deriving instance DecidableEq for Except

namespace MB

/-! ## Error model (src/lib.rs `errors` module, error-chain kinds) -/

/-- Model of `std::num::IntErrorKind` (the cases reachable from
`str::parse` on an unsigned integer type). -/
inductive IntErrorKind where
  | empty
  | invalidDigit
  | posOverflow
deriving DecidableEq

/-- Model of `std::num::ParseIntError`. -/
structure ParseIntError where
  kind : IntErrorKind
deriving DecidableEq

/-- `ParseDateError` from src/src/entities/date.rs. -/
inductive ParseDateError where
  | wrongNumberOfComponents (n : Nat)
  | componentInvalid (e : ParseIntError)
deriving DecidableEq

/-- The decode-error type of the crate (`ParseError` / `ReadError`; the two
historical names share the same kinds relevant here).  The foreign-link
conversions of error-chain become explicit constructors. -/
inductive ParseError where
  | invalidData (msg : String)
  | internalError (msg : String)
  | parseIntError (e : ParseIntError)
  | parseDateError (e : ParseDateError)
  | uuidParseError (s : String)
  | xpathError (msg : String)
deriving DecidableEq

/-! ## Unsigned integer parsing (Rust `str::parse::<uN>()`) -/

/-- One pass of Rust `from_str_radix` (radix 10, unsigned): for each
character, reject non-digits, then reject values exceeding `max`. -/
def parseDigitsLoop (max : Nat) : List Char → Nat → Except ParseIntError Nat
  | [], acc => .ok acc
  | c :: cs, acc =>
    if c.isDigit then
      let d := c.toNat - 48
      if acc * 10 + d > max then .error ⟨.posOverflow⟩
      else parseDigitsLoop max cs (acc * 10 + d)
    else .error ⟨.invalidDigit⟩

/-- Model of Rust `str::parse` for an unsigned integer type with maximum
value `max`: an empty string is `Empty`, an optional leading plus sign is
allowed, and at least one digit must follow. -/
def parseUnsigned (max : Nat) (cs : List Char) : Except ParseIntError Nat :=
  match cs with
  | [] => .error ⟨.empty⟩
  | c :: rest =>
    let digits := if c = '+' then rest else c :: rest
    match digits with
    | [] => .error ⟨.invalidDigit⟩
    | ds => parseDigitsLoop max ds 0

/-- `parse::<u16>()`, with the `From<ParseIntError> for ParseError` link. -/
def parseU16 (s : String) : Except ParseError Nat :=
  match parseUnsigned 65535 s.data with
  | .ok n => .ok n
  | .error e => .error (.parseIntError e)

/-- `parse::<u64>()`, with the `From<ParseIntError> for ParseError` link. -/
def parseU64 (s : String) : Except ParseError Nat :=
  match parseUnsigned 18446744073709551615 s.data with
  | .ok n => .ok n
  | .error e => .error (.parseIntError e)

/-! ## Partial dates (src/src/entities/date.rs) -/

/-- The partial-date type: year, year+month or year+month+day resolution.
Rust stores `u16`/`u8`; the parser below enforces those bounds. -/
inductive Date where
  | Year (year : Nat)
  | Month (year : Nat) (month : Nat)
  | Day (year : Nat) (month : Nat) (day : Nat)
deriving DecidableEq

/-- `Date::year`. -/
def Date.year : Date → Nat
  | .Year y => y
  | .Month y _ => y
  | .Day y _ _ => y

/-- `Date::month` (0 when the variant stores no month). -/
def Date.month : Date → Nat
  | .Year _ => 0
  | .Month _ m => m
  | .Day _ m _ => m

/-- `Date::day` (0 when the variant stores no day). -/
def Date.day : Date → Nat
  | .Year _ => 0
  | .Month _ _ => 0
  | .Day _ _ d => d

/-- Rust `s.split("-")` for the one-character pattern: splits on every
dash, keeping empty pieces (so the result always has one more piece than
there are dashes). -/
def splitDash : List Char → List (List Char)
  | [] => [[]]
  | c :: cs =>
    let r := splitDash cs
    if c = '-' then [] :: r
    else
      match r with
      | g :: gs => (c :: g) :: gs
      | [] => [[c]]

/-- `impl FromStr for Date` (src/src/entities/date.rs lines 71-96):
1 component parses as `Year` (u16), 2 as `Month` (u16, u8), 3 as `Day`
(u16, u8, u8); any other count is `WrongNumberOfComponents`, and a
component failing integer parsing is `ComponentInvalid`. -/
def Date.fromStr (s : String) : Except ParseDateError Date :=
  let ps := splitDash s.data
  match ps with
  | [a] =>
    match parseUnsigned 65535 a with
    | .ok y => .ok (Date.Year y)
    | .error e => .error (.componentInvalid e)
  | [a, b] =>
    match parseUnsigned 65535 a with
    | .error e => .error (.componentInvalid e)
    | .ok y =>
      match parseUnsigned 255 b with
      | .error e => .error (.componentInvalid e)
      | .ok m => .ok (Date.Month y m)
  | [a, b, c] =>
    match parseUnsigned 65535 a with
    | .error e => .error (.componentInvalid e)
    | .ok y =>
      match parseUnsigned 255 b with
      | .error e => .error (.componentInvalid e)
      | .ok m =>
        match parseUnsigned 255 c with
        | .error e => .error (.componentInvalid e)
        | .ok d => .ok (Date.Day y m d)
  | other => .error (.wrongNumberOfComponents other.length)

/-! ## Closed-vocabulary enums

Each Rust `from_str` is a sequential match on string literals; a `match`
on `&str` compares the scrutinee against each literal in order, which the
if-chains below mirror exactly.  (The exact error-message strings of the
source use quoting characters; they are reproduced without the quotes,
which no claim depends on.) -/

/-- `AreaType` (src/src/entities/area.rs). -/
inductive AreaType where
  | Country | Subdivision | County | Muncipality | City | District | Island
deriving DecidableEq

/-- `impl FromStr for AreaType` (src/src/entities/area.rs lines 30-44). -/
def AreaType.fromStr (s : String) : Except ParseError AreaType :=
  if s = "Country" then .ok .Country
  else if s = "Subdivision" then .ok .Subdivision
  else if s = "County" then .ok .County
  else if s = "Muncipality" then .ok .Muncipality
  else if s = "City" then .ok .City
  else if s = "District" then .ok .District
  else if s = "Island" then .ok .Island
  else .error (.invalidData ("Invalid AreaType: " ++ s))

/-- `ArtistType` (src/src/entities/artist.rs). -/
inductive ArtistType where
  | Person | Group | Orchestra | Choir | Character | Other
deriving DecidableEq

/-- `impl FromStr for ArtistType` (src/src/entities/artist.rs lines 33-50). -/
def ArtistType.fromStr (s : String) : Except ParseError ArtistType :=
  if s = "Person" then .ok .Person
  else if s = "Group" then .ok .Group
  else if s = "Orchestra" then .ok .Orchestra
  else if s = "Choir" then .ok .Choir
  else if s = "Character" then .ok .Character
  else if s = "Other" then .ok .Other
  else .error (.invalidData ("Unknown artist type: " ++ s))

/-- `Gender` (src/src/entities/artist.rs): the one open vocabulary. -/
inductive Gender where
  | Female
  | Male
  | Other (s : String)
deriving DecidableEq

/-- `Gender::from_str` (src/src/entities/artist.rs lines 12-21): returns
`Option`, with an `Other` catch-all for unknown non-empty strings. -/
def Gender.fromStr (s : String) : Option Gender :=
  if s = "Female" then some .Female
  else if s = "Male" then some .Male
  else if s = "" then none
  else some (.Other s)

/-- `LabelType` (src/src/entities/mod.rs lines 243-264). -/
inductive LabelType where
  | Imprint
  | ProductionOriginal
  | ProductionBootleg
  | ProductionReissue
  | Distribution
  | Holding
  | RightsSociety
deriving DecidableEq

/-- `impl FromStr for LabelType` (src/src/entities/mod.rs lines 266-280):
the three production variants are named by server literals that differ
from the Rust identifier names. -/
def LabelType.fromStr (s : String) : Except ParseError LabelType :=
  if s = "Imprint" then .ok .Imprint
  else if s = "Original Production" then .ok .ProductionOriginal
  else if s = "Bootleg Production" then .ok .ProductionBootleg
  else if s = "Reissue Production" then .ok .ProductionReissue
  else if s = "Distribution" then .ok .Distribution
  else if s = "Holding" then .ok .Holding
  else if s = "RightsSociety" then .ok .RightsSociety
  else .error (.invalidData ("Invalid LabelType: " ++ s))

/-- `ReleaseStatus` (src/src/entities/release.rs lines 88-103). -/
inductive ReleaseStatus where
  | Official | Promotional | Bootleg | PseudoRelease
deriving DecidableEq

/-- `impl FromStr for ReleaseStatus` (src/src/entities/release.rs lines
105-120; the copy in mod.rs lines 437-450 has the same mapping). -/
def ReleaseStatus.fromStr (s : String) : Except ParseError ReleaseStatus :=
  if s = "Official" then .ok .Official
  else if s = "Promotional" then .ok .Promotional
  else if s = "Bootleg" then .ok .Bootleg
  else if s = "PseudoRelease" then .ok .PseudoRelease
  else .error (.invalidData ("Unknown ReleaseStatus: " ++ s))

/-- `ReleaseGroupPrimaryType` (src/src/entities/release_group.rs). -/
inductive ReleaseGroupPrimaryType where
  | Album | Single | EP | Broadcast | Other
deriving DecidableEq

/-- `impl FromStr for ReleaseGroupPrimaryType`
(src/src/entities/release_group.rs lines 13-29). -/
def ReleaseGroupPrimaryType.fromStr (s : String) :
    Except ParseError ReleaseGroupPrimaryType :=
  if s = "Album" then .ok .Album
  else if s = "Single" then .ok .Single
  else if s = "EP" then .ok .EP
  else if s = "Broadcast" then .ok .Broadcast
  else if s = "Other" then .ok .Other
  else .error (.invalidData ("Unknown ReleaseGroupPrimaryType: " ++ s))

/-- `ReleaseGroupSecondaryType` (src/src/entities/release_group.rs). -/
inductive ReleaseGroupSecondaryType where
  | Compilation | Soundtrack | Spokenword | Interview | Audiobook
  | Live | Remix | DjMix | MixtapeStreet
deriving DecidableEq

/-- `impl FromStr for ReleaseGroupSecondaryType`
(src/src/entities/release_group.rs lines 45-66). -/
def ReleaseGroupSecondaryType.fromStr (s : String) :
    Except ParseError ReleaseGroupSecondaryType :=
  if s = "Compilation" then .ok .Compilation
  else if s = "Soundtrack" then .ok .Soundtrack
  else if s = "Spokenword" then .ok .Spokenword
  else if s = "Interview" then .ok .Interview
  else if s = "Audiobook" then .ok .Audiobook
  else if s = "Live" then .ok .Live
  else if s = "Remix" then .ok .Remix
  else if s = "DJ-mix" then .ok .DjMix
  else if s = "Mixtape/Street" then .ok .MixtapeStreet
  else .error (.invalidData ("Unknown ReleaseSecondaryPrimaryType: " ++ s))

/-! ## XML query oracle

Every decoder touches the document only through `XPathReader::evaluate`,
so a reader is a finite table from xpath-expression strings to the
`sxd_xpath::Value` results (or errors) the library would produce.  An
expression absent from the table behaves as an expression matching
nothing: it evaluates to an empty node-set, whose string value is empty —
exactly the sxd behaviour for a non-matching path query.  A node carries
the table answering queries evaluated against a node-scoped reader
(`XPathNodeReader`), plus its XPath string-value.  Node-sets are stored
in document order, matching `Nodeset::document_order`. -/

mutual
/-- Model of `sxd_xpath::Value` (the `Number` float variant is never used
by this crate and is omitted). -/
inductive XValue where
  | nodeset (nodes : List XNode)
  | str (s : String)
  | boolean (b : Bool)

/-- Model of a document node: the query table seen by a reader scoped to
this node, and the XPath string-value of the node. -/
inductive XNode where
  | node (queries : List (String × Except ParseError XValue))
         (stringValue : String)
end

/-- The query table of a node-scoped reader. -/
def XNode.queries : XNode → List (String × Except ParseError XValue)
  | .node q _ => q

/-- The XPath string-value of a node (`Node::string_value`). -/
def XNode.stringVal : XNode → String
  | .node _ s => s

/-- `sxd_xpath::Value::string`: a node-set yields the string-value of its
first node in document order (empty if the set is empty). -/
def XValue.string : XValue → String
  | .nodeset [] => ""
  | .nodeset (n :: _) => n.stringVal
  | .str s => s
  | .boolean true => "true"
  | .boolean false => "false"

/-- A reader (`XPathStrReader` or `XPathNodeReader`): its observable
behaviour is its `evaluate` table. -/
def Reader := List (String × Except ParseError XValue)

/-- `XPathReader::evaluate`: look the expression up; an expression not in
the table matches nothing and yields an empty node-set. -/
def Reader.evaluate : Reader → String → Except ParseError XValue
  | [], _ => .ok (.nodeset [])
  | (k, v) :: rest, e => if k = e then v else Reader.evaluate rest e

/-! ## Mbid (`uuid::Uuid`) -/

/-- Hexadecimal digit (both cases), as accepted by the uuid crate. -/
def isHexDigit (c : Char) : Bool :=
  (48 ≤ c.toNat && c.toNat ≤ 57) ||
  (97 ≤ c.toNat && c.toNat ≤ 102) ||
  (65 ≤ c.toNat && c.toNat ≤ 70)

/-- Lower-case a hexadecimal digit. -/
def hexToLower (c : Char) : Char :=
  if 65 ≤ c.toNat && c.toNat ≤ 70 then Char.ofNat (c.toNat + 32) else c

/-- Character check for the hyphenated form: positions 8, 13, 18 and 23
hold dashes, every other position a hex digit. -/
def uuidHyphenChar (i : Nat) (c : Char) : Bool :=
  if i = 8 || i = 13 || i = 18 || i = 23 then c = '-' else isHexDigit c

/-- Insert the canonical hyphens into a 32-hex-digit list. -/
def uuidAddHyphens (cs : List Char) : List Char :=
  cs.take 8 ++ '-' :: (cs.drop 8).take 4 ++ '-' :: (cs.drop 12).take 4 ++
  '-' :: (cs.drop 16).take 4 ++ '-' :: cs.drop 20

/-- An `Mbid` (`uuid::Uuid`), represented by its canonical lower-case
hyphenated text. -/
abbrev Mbid := String

/-- Model of `uuid::Uuid::parse_str` (external uuid crate): accepts the
hyphenated 8-4-4-4-12 form and the simple 32-hex-digit form, producing
the canonical lower-case hyphenated identifier; any other shape is a
parse error (the `UuidParseError` foreign link of the error chain). -/
def Mbid.parseStr (s : String) : Except ParseError Mbid :=
  let cs := s.data
  if cs.length = 36 && (cs.enum.all fun p => uuidHyphenChar p.1 p.2) then
    .ok (String.mk (cs.map hexToLower))
  else if cs.length = 32 && cs.all isHexDigit then
    .ok (String.mk (uuidAddHyphens (cs.map hexToLower)))
  else
    .error (.uuidParseError s)

/-! ## Typed readers (src/src/entities/xpath_reader.rs) -/

/-- `non_empty_string` (src/src/entities/mod.rs lines 22-24). -/
def non_empty_string (s : String) : Option String :=
  if s.isEmpty then none else some s

/-- `XPathReader::read_mbid` (xpath_reader.rs lines 43-45). -/
def readMbid (r : Reader) (expr : String) : Except ParseError Mbid := do
  let v ← Reader.evaluate r expr
  Mbid.parseStr v.string

/-- `XPathReader::read_string` (xpath_reader.rs lines 48-50). -/
def readString (r : Reader) (expr : String) : Except ParseError String := do
  let v ← Reader.evaluate r expr
  pure v.string

/-- `XPathReader::read_nstring` (xpath_reader.rs lines 54-56). -/
def readNstring (r : Reader) (expr : String) :
    Except ParseError (Option String) := do
  let v ← Reader.evaluate r expr
  pure (non_empty_string v.string)

/-- `XPathReader::read_date` (xpath_reader.rs lines 59-61). -/
def readDate (r : Reader) (expr : String) : Except ParseError Date := do
  let v ← Reader.evaluate r expr
  match Date.fromStr v.string with
  | .ok d => pure d
  | .error e => .error (.parseDateError e)

/-- Fail-fast traversal: `iter().map(..).collect::<Result<Vec<_>, _>>()`
stops at the first decoder failure, in list (document) order. -/
def mapExcept (f : α → Except ParseError β) :
    List α → Except ParseError (List β)
  | [] => .ok []
  | x :: xs => do
    let y ← f x
    let ys ← mapExcept f xs
    pure (y :: ys)

/-- The node-set branch shared by `read_vec` and the inlined list reads of
`Release::from_xml` and `ReleaseMedium::from_xml`: a node-set is decoded
node by node in document order through a node-scoped reader
(`XPathNodeReader::new(node, ctx)` never fails, so it contributes no
error case); any other value decodes to the empty list. -/
def decodeNodesetOr (v : XValue) (dec : Reader → Except ParseError α) :
    Except ParseError (List α) :=
  match v with
  | .nodeset ns => mapExcept (fun n => dec n.queries) ns
  | _ => .ok []

/-- `XPathReader::read_vec` (xpath_reader.rs lines 65-80), parametrised by
the item decoder standing for `Item::from_xml`. -/
def readVec (r : Reader) (expr : String)
    (dec : Reader → Except ParseError α) : Except ParseError (List α) := do
  let v ← Reader.evaluate r expr
  decodeNodesetOr v dec

/-! ## Ref types (src/src/entities/refs.rs) -/

/-- `Duration` is `std::time::Duration` built with `from_millis`; only
millisecond counts occur, modelled as the count itself. -/
abbrev Duration := Nat

/-- `RecordingRef` (refs.rs lines 80-84). -/
structure RecordingRef where
  mbid : Mbid
  title : String
  length : Duration
deriving DecidableEq

/-- `RecordingRef::from_xml` (refs.rs lines 87-98). -/
def RecordingRef.fromXml (r : Reader) : Except ParseError RecordingRef := do
  let mbid ← readMbid r ".//@id"
  let title ← readString r ".//mb:title/text()"
  let lv ← Reader.evaluate r ".//mb:length/text()"
  let length ← parseU64 lv.string
  pure { mbid := mbid, title := title, length := length }

/-- `ArtistRef` (refs.rs lines 37-42). -/
structure ArtistRef where
  mbid : Mbid
  name : String
  sort_name : String
deriving DecidableEq

/-- `ArtistRef::from_xml` (refs.rs lines 45-55). -/
def ArtistRef.fromXml (r : Reader) : Except ParseError ArtistRef := do
  let mbid ← readMbid r ".//@id"
  let name ← readString r ".//mb:name/text()"
  let sortName ← readString r ".//mb:sort-name/text()"
  pure { mbid := mbid, name := name, sort_name := sortName }

/-- `LabelRef` (refs.rs lines 57-63). -/
structure LabelRef where
  mbid : Mbid
  name : String
  sort_name : String
  label_code : Option String
deriving DecidableEq

/-- `LabelRef::from_xml` (refs.rs lines 66-77). -/
def LabelRef.fromXml (r : Reader) : Except ParseError LabelRef := do
  let mbid ← readMbid r ".//@id"
  let name ← readString r ".//mb:name/text()"
  let sortName ← readString r ".//mb:sort-name/text()"
  let labelCode ← readNstring r ".//mb:label-code/text()"
  pure { mbid := mbid, name := name, sort_name := sortName,
         label_code := labelCode }

/-! ## Release, medium and track (src/src/entities/release.rs) -/

/-- `ReleaseTrack` (release.rs lines 3-21). -/
structure ReleaseTrack where
  mbid : Mbid
  position : Nat
  number : Nat
  title : String
  length : Duration
  recording : RecordingRef
deriving DecidableEq

/-- The recording field of `ReleaseTrack::from_xml` (release.rs lines
36-49): the `.//mb:recording` result must be a node-set with at least one
node (whose head, `document_order_first`, is decoded); an empty node-set
or a non-node-set value is the `InvalidData` error naming the track
mbid. -/
def recordingField (mbid : Mbid) (v : XValue) : Except ParseError RecordingRef :=
  match v with
  | .nodeset (n :: _) => RecordingRef.fromXml n.queries
  | .nodeset [] =>
    .error (.invalidData ("ReleaseTrack without RecordingRef, mbid: " ++ mbid))
  | _ =>
    .error (.invalidData ("ReleaseTrack without RecordingRef, mbid: " ++ mbid))

/-- `ReleaseTrack::from_xml` (release.rs lines 23-52).  Field expressions
run in the order of the Rust struct literal. -/
def ReleaseTrack.fromXml (r : Reader) : Except ParseError ReleaseTrack := do
  let mbid ← readMbid r ".//@id"
  let pv ← Reader.evaluate r ".//mb:position/text()"
  let position ← parseU16 pv.string
  let nv ← Reader.evaluate r ".//mb:number/text()"
  let number ← parseU16 nv.string
  let tv ← Reader.evaluate r ".//mb:title/text()"
  let lv ← Reader.evaluate r ".//mb:length/text()"
  let length ← parseU64 lv.string
  let rv ← Reader.evaluate r ".//mb:recording"
  let recording ← recordingField mbid rv
  pure { mbid := mbid, position := position, number := number,
         title := tv.string, length := length, recording := recording }

/-- `ReleaseMedium` (release.rs lines 57-63). -/
structure ReleaseMedium where
  position : Nat
  tracks : List ReleaseTrack
deriving DecidableEq

/-- `ReleaseMedium::from_xml` (release.rs lines 65-86): the track list is
computed first (decoding every `mb:track` node in document order,
fail-fast), then the position field. -/
def ReleaseMedium.fromXml (r : Reader) : Except ParseError ReleaseMedium := do
  let tracksNode ← Reader.evaluate r ".//mb:track-list/mb:track"
  let tracks ← decodeNodesetOr tracksNode ReleaseTrack.fromXml
  let pv ← Reader.evaluate r ".//mb:position/text()"
  let position ← parseU16 pv.string
  pure { position := position, tracks := tracks }

/-- `Release` (release.rs lines 121-166). -/
structure Release where
  mbid : Mbid
  title : String
  artists : List ArtistRef
  date : Date
  country : String
  labels : List LabelRef
  catalogue_number : Option String
  barcode : Option String
  status : ReleaseStatus
  packaging : Option String
  language : String
  script : String
  disambiguation : Option String
  mediums : List ReleaseMedium
deriving DecidableEq

/-- The date field of `Release::from_xml`:
`.string().parse::<Date>()?`, whose `?` converts the `ParseDateError`
through the error-chain foreign link — a malformed date aborts the
decode. -/
def dateField (v : XValue) : Except ParseError Date :=
  match Date.fromStr v.string with
  | .ok d => .ok d
  | .error e => .error (.parseDateError e)

/-- `Release::from_xml` (release.rs lines 168-236): artists, labels and
mediums are decoded first (each an inlined node-set traversal,
fail-fast), then the struct-literal fields in source order.  The date
field uses `parse::<Date>()?`, so a malformed date aborts the decode. -/
def Release.fromXml (r : Reader) : Except ParseError Release := do
  let artistsNode ← Reader.evaluate r ".//mb:release/mb:artist-credit/mb:name-credit"
  let artists ← decodeNodesetOr artistsNode ArtistRef.fromXml
  let labelsNode ← Reader.evaluate r ".//mb:release/mb:label-info-list/mb:label-info"
  let labels ← decodeNodesetOr labelsNode LabelRef.fromXml
  let mediumsNode ← Reader.evaluate r ".//mb:release/mb:medium-list/mb:medium"
  let mediums ← decodeNodesetOr mediumsNode ReleaseMedium.fromXml
  let mbid ← readMbid r ".//mb:release/@id"
  let titleV ← Reader.evaluate r ".//mb:release/mb:title/text()"
  let dateV ← Reader.evaluate r ".//mb:release/mb:date/text()"
  let date ← dateField dateV
  let countryV ← Reader.evaluate r ".//mb:release/mb:country/text()"
  let catV ← Reader.evaluate r
    ".//mb:release/mb:label-info-list/mb:label-info/mb:catalog-number/text()"
  let barV ← Reader.evaluate r ".//mb:release/mb:barcode/text()"
  let statusV ← Reader.evaluate r ".//mb:release/mb:status/text()"
  let status ← ReleaseStatus.fromStr statusV.string
  let packV ← Reader.evaluate r ".//mb:release/mb:packaging/text()"
  let langV ← Reader.evaluate r
    ".//mb:release/mb:text-representation/mb:language/text()"
  let scriptV ← Reader.evaluate r
    ".//mb:release/mb:text-representation/mb:script/text()"
  let disV ← Reader.evaluate r ".//mb:release/mb:disambiguation/text()"
  pure { mbid := mbid, title := titleV.string, artists := artists,
         date := date, country := countryV.string, labels := labels,
         catalogue_number := non_empty_string catV.string,
         barcode := non_empty_string barV.string, status := status,
         packaging := non_empty_string packV.string,
         language := langV.string, script := scriptV.string,
         disambiguation := non_empty_string disV.string,
         mediums := mediums }

/-! ## Label (src/src/entities/label.rs) -/

/-- `Label` (label.rs lines 8-48). -/
structure Label where
  mbid : Mbid
  name : String
  sort_name : String
  disambiguation : Option String
  aliases : List String
  label_code : Option String
  label_type : LabelType
  country : Option String
  ipi_code : Option String
  isni_code : Option String
  begin_date : Option Date
  end_date : Option Date
deriving DecidableEq

/-- `Label::from_xml` (label.rs lines 56-94): aliases are collected first
(string-values of the alias text nodes; a non-node-set gives the empty
list), then the struct-literal fields in source order.  `ipi_code` and
`isni_code` are hardcoded `None`, and the two life-span dates coerce
parse failures to `None` via `.ok()`. -/
def Label.fromXml (r : Reader) : Except ParseError Label := do
  let aliasesNode ← Reader.evaluate r ".//mb:label/mb:alias-list/mb:alias/text()"
  let aliases : List String :=
    match aliasesNode with
    | .nodeset ns => ns.map XNode.stringVal
    | _ => []
  let mbid ← readMbid r ".//mb:label/@id"
  let nameV ← Reader.evaluate r ".//mb:label/mb:name/text()"
  let sortV ← Reader.evaluate r ".//mb:label/mb:sort-name/text()"
  let disV ← Reader.evaluate r ".//mb:label/mb:disambiguation/text()"
  let codeV ← Reader.evaluate r ".//mb:label/mb:label-code/text()"
  let typeV ← Reader.evaluate r ".//mb:label/@type"
  let labelType ← LabelType.fromStr typeV.string
  let countryV ← Reader.evaluate r ".//mb:label/mb:country/text()"
  let beginV ← Reader.evaluate r ".//mb:label/mb:life-span/mb:begin/text()"
  let endV ← Reader.evaluate r ".//mb:label/mb:life-span/mb:end/text()"
  pure { mbid := mbid, name := nameV.string, sort_name := sortV.string,
         disambiguation := non_empty_string disV.string,
         aliases := aliases,
         label_code := non_empty_string codeV.string,
         label_type := labelType,
         country := non_empty_string countryV.string,
         ipi_code := none, isni_code := none,
         begin_date := (Date.fromStr beginV.string).toOption,
         end_date := (Date.fromStr endV.string).toOption }

/-! ## Concrete sample readers

Closed inputs (drawn from the documents of the crate's unit tests) used
to exercise the theorems below on concrete data. -/

/-- A fully decodable track reader (first track of the `read_tracks`
test document). -/
def sampleTrackReader : Reader :=
  [(".//@id", .ok (.str "ac898be7-2965-4d17-9ac8-48d45852d73c")),
   (".//mb:position/text()", .ok (.str "1")),
   (".//mb:number/text()", .ok (.str "1")),
   (".//mb:title/text()", .ok (.str "puella tenebrarum")),
   (".//mb:length/text()", .ok (.str "232000")),
   (".//mb:recording", .ok (.nodeset [.node
     [(".//@id", .ok (.str "fd6f4cd8-9cff-43da-8cd7-3351357b6f5a")),
      (".//mb:title/text()", .ok (.str "Puella Tenebrarum")),
      (".//mb:length/text()", .ok (.str "232000"))] ""]))]

/-- The track `sampleTrackReader` decodes to. -/
def sampleTrack : ReleaseTrack :=
  { mbid := "ac898be7-2965-4d17-9ac8-48d45852d73c", position := 1,
    number := 1, title := "puella tenebrarum", length := 232000,
    recording := { mbid := "fd6f4cd8-9cff-43da-8cd7-3351357b6f5a",
                   title := "Puella Tenebrarum", length := 232000 } }

/-- A medium reader holding two track nodes in document order. -/
def sampleMediumReader : Reader :=
  [(".//mb:track-list/mb:track",
    .ok (.nodeset [.node sampleTrackReader "", .node sampleTrackReader ""])),
   (".//mb:position/text()", .ok (.str "1"))]

/-- A release reader holding one medium node; the remaining queried
expressions default to empty matches. -/
def sampleReleaseReader : Reader :=
  [(".//mb:release/mb:medium-list/mb:medium",
    .ok (.nodeset [.node sampleMediumReader ""])),
   (".//mb:release/@id", .ok (.str "d1881a4c-0188-4f0f-a2e7-4e7849aec109")),
   (".//mb:release/mb:date/text()", .ok (.str "2015-10-04")),
   (".//mb:release/mb:status/text()", .ok (.str "Official"))]

/-- A track reader whose recording query matches nothing (the table has
no entry for it, so it evaluates to the empty node-set). -/
def noRecordingTrackReader : Reader :=
  [(".//@id", .ok (.str "ac898be7-2965-4d17-9ac8-48d45852d73c")),
   (".//mb:position/text()", .ok (.str "1")),
   (".//mb:number/text()", .ok (.str "1")),
   (".//mb:length/text()", .ok (.str "232000"))]

/-- A medium reader whose single track has no recording. -/
def noRecordingMediumReader : Reader :=
  [(".//mb:track-list/mb:track",
    .ok (.nodeset [.node noRecordingTrackReader ""])),
   (".//mb:position/text()", .ok (.str "1"))]

/-- A release reader whose single medium has the defective track. -/
def noRecordingReleaseReader : Reader :=
  [(".//mb:release/mb:medium-list/mb:medium",
    .ok (.nodeset [.node noRecordingMediumReader ""])),
   (".//mb:release/@id", .ok (.str "d1881a4c-0188-4f0f-a2e7-4e7849aec109")),
   (".//mb:release/mb:date/text()", .ok (.str "2015-10-04")),
   (".//mb:release/mb:status/text()", .ok (.str "Official"))]

/-- A release reader that is fully decodable except for its malformed
date text. -/
def malformedDateReleaseReader : Reader :=
  [(".//mb:release/@id", .ok (.str "ed118c5f-d940-4b52-a37b-b1a205374abe")),
   (".//mb:release/mb:status/text()", .ok (.str "Official")),
   (".//mb:release/mb:date/text()", .ok (.str "1-1-1-1"))]

/-- The same release reader with a well-formed date: decoding succeeds,
isolating the date as the only failure cause above. -/
def wellFormedDateReleaseReader : Reader :=
  [(".//mb:release/@id", .ok (.str "ed118c5f-d940-4b52-a37b-b1a205374abe")),
   (".//mb:release/mb:status/text()", .ok (.str "Official")),
   (".//mb:release/mb:date/text()", .ok (.str "1992-09-21"))]

/-- A label reader with malformed life-span begin and end texts. -/
def malformedLifeSpanLabelReader : Reader :=
  [(".//mb:label/@id", .ok (.str "c029628b-6633-439e-bcee-ed02e8a338f7")),
   (".//mb:label/@type", .ok (.str "Imprint")),
   (".//mb:label/mb:life-span/mb:begin/text()", .ok (.str "19xx")),
   (".//mb:label/mb:life-span/mb:end/text()", .ok (.str "1-2-3-4"))]

/-- The EMI label document of the `label_read_xml1` test: its type
attribute is the server literal with a space. -/
def emiLabelReader : Reader :=
  [(".//mb:label/@id", .ok (.str "c029628b-6633-439e-bcee-ed02e8a338f7")),
   (".//mb:label/mb:name/text()", .ok (.str "EMI")),
   (".//mb:label/mb:sort-name/text()", .ok (.str "EMI")),
   (".//mb:label/mb:disambiguation/text()",
    .ok (.str "EMI Records, since 1972")),
   (".//mb:label/mb:label-code/text()", .ok (.str "542")),
   (".//mb:label/@type", .ok (.str "Original Production")),
   (".//mb:label/mb:country/text()", .ok (.str "GB")),
   (".//mb:label/mb:life-span/mb:begin/text()", .ok (.str "1972"))]

/-- The label `emiLabelReader` decodes to. -/
def emiLabel : Label :=
  { mbid := "c029628b-6633-439e-bcee-ed02e8a338f7", name := "EMI",
    sort_name := "EMI", disambiguation := some "EMI Records, since 1972",
    aliases := [], label_code := some "542",
    label_type := .ProductionOriginal, country := some "GB",
    ipi_code := none, isni_code := none,
    begin_date := some (Date.Year 1972), end_date := none }

/-- A label reader carrying ipi and isni content under the paths a
decoder could have queried; `Label::from_xml` never queries them. -/
def ipiLabelReader : Reader :=
  [(".//mb:label/@id", .ok (.str "168f48c8-057e-4974-9600-aa9956d21e1a")),
   (".//mb:label/@type", .ok (.str "Original Production")),
   (".//mb:label/mb:ipi/text()", .ok (.str "00519338442")),
   (".//mb:label/mb:isni-list/mb:isni/text()",
    .ok (.str "0000000120254559"))]

/-- The label `ipiLabelReader` decodes to. -/
def ipiLabel : Label :=
  { mbid := "168f48c8-057e-4974-9600-aa9956d21e1a", name := "",
    sort_name := "", disambiguation := none, aliases := [],
    label_code := none, label_type := .ProductionOriginal, country := none,
    ipi_code := none, isni_code := none,
    begin_date := none, end_date := none }

/-! ## Helper lemmas about `Except` chains and fail-fast traversal -/

theorem ebind_ok (a : α) (f : α → Except ParseError β) :
    (Except.ok a >>= f) = f a := rfl

theorem ebind_error (e : ParseError) (f : α → Except ParseError β) :
    ((Except.error e : Except ParseError α) >>= f) = .error e := rfl

theorem epure (a : α) : (pure a : Except ParseError α) = .ok a := rfl

/-- Invert one bind of a successful `Except` chain. -/
theorem ebind_ok_inv {x : Except ParseError α} {f : α → Except ParseError β}
    {b : β} (h : (x >>= f) = Except.ok b) :
    ∃ a, x = Except.ok a ∧ f a = Except.ok b := by
  cases x with
  | error e => exact absurd h (by simp [ebind_error])
  | ok a => exact ⟨a, rfl, h⟩

/-- An `Except` that is no success is some failure. -/
theorem not_ok_error {x : Except ParseError α}
    (h : ∀ a, x ≠ Except.ok a) : ∃ e, x = Except.error e := by
  cases x with
  | error e => exact ⟨e, rfl⟩
  | ok a => exact absurd rfl (h a)

/-- If every element decodes, the fail-fast traversal returns the decoded
elements in order. -/
theorem mapExcept_map_ok {f : α → Except ParseError β} {g : α → β} :
    ∀ {l : List α}, (∀ x ∈ l, f x = .ok (g x)) →
      mapExcept f l = .ok (l.map g) := by
  intro l
  induction l with
  | nil => intro _; rfl
  | cons x xs ih =>
    intro h
    have hx := h x (by simp)
    have hxs := ih fun y hy => h y (List.mem_cons_of_mem _ hy)
    simp [mapExcept, hx, hxs, ebind_ok, epure]

/-- If the fail-fast traversal succeeds, every element decoded. -/
theorem mapExcept_ok_forall {f : α → Except ParseError β} :
    ∀ {l : List α} {ys : List β}, mapExcept f l = .ok ys →
      ∀ x ∈ l, ∃ y, f x = .ok y := by
  intro l
  induction l with
  | nil => intro ys _ x hx; cases hx
  | cons z zs ih =>
    intro ys h x hx
    rw [mapExcept] at h
    obtain ⟨y, hy, h2⟩ := ebind_ok_inv h
    obtain ⟨ys2, hys2, _⟩ := ebind_ok_inv h2
    rcases List.mem_cons.mp hx with hxz | hxzs
    · exact ⟨y, hxz ▸ hy⟩
    · exact ih hys2 x hxzs

/-- A failing element makes the fail-fast traversal fail. -/
theorem mapExcept_error_of_mem {f : α → Except ParseError β} {l : List α}
    {x : α} {e : ParseError} (hx : x ∈ l) (hf : f x = .error e) :
    ∃ e2, mapExcept f l = .error e2 := by
  rcases h : mapExcept f l with e2 | ys
  · exact ⟨e2, rfl⟩
  · obtain ⟨y, hy⟩ := mapExcept_ok_forall h x hx
    rw [hf] at hy
    cases hy

/-- The first failing element, after a successful prefix, is the failure
the fail-fast traversal reports. -/
theorem mapExcept_first_error {f : α → Except ParseError β} {l1 : List α}
    {x : α} {l2 : List α} {e : ParseError}
    (h1 : ∀ m ∈ l1, ∃ y, f m = .ok y) (hx : f x = .error e) :
    mapExcept f (l1 ++ x :: l2) = .error e := by
  induction l1 with
  | nil => simp [mapExcept, hx, ebind_error]
  | cons z zs ih =>
    obtain ⟨y, hy⟩ := h1 z (by simp)
    have := ih fun m hm => h1 m (List.mem_cons_of_mem _ hm)
    simp [mapExcept, hy, ebind_ok, this, ebind_error]

/-! ## Characterizations of the entity decoders -/

/-- Forward evaluation of `Label::from_xml` when every required step
succeeds. -/
theorem label_fromXml_eq_ok {r : Reader} {av nv sv dv cv tv cov bv ev : XValue}
    {m : Mbid} {lt : LabelType}
    (hav : Reader.evaluate r ".//mb:label/mb:alias-list/mb:alias/text()" = .ok av)
    (hm : readMbid r ".//mb:label/@id" = .ok m)
    (hnv : Reader.evaluate r ".//mb:label/mb:name/text()" = .ok nv)
    (hsv : Reader.evaluate r ".//mb:label/mb:sort-name/text()" = .ok sv)
    (hdv : Reader.evaluate r ".//mb:label/mb:disambiguation/text()" = .ok dv)
    (hcv : Reader.evaluate r ".//mb:label/mb:label-code/text()" = .ok cv)
    (htv : Reader.evaluate r ".//mb:label/@type" = .ok tv)
    (hlt : LabelType.fromStr tv.string = .ok lt)
    (hcov : Reader.evaluate r ".//mb:label/mb:country/text()" = .ok cov)
    (hbv : Reader.evaluate r ".//mb:label/mb:life-span/mb:begin/text()" = .ok bv)
    (hev : Reader.evaluate r ".//mb:label/mb:life-span/mb:end/text()" = .ok ev) :
    Label.fromXml r = .ok
      { mbid := m, name := nv.string, sort_name := sv.string,
        disambiguation := non_empty_string dv.string,
        aliases := (match av with
                    | .nodeset ns => ns.map XNode.stringVal
                    | _ => []),
        label_code := non_empty_string cv.string, label_type := lt,
        country := non_empty_string cov.string,
        ipi_code := none, isni_code := none,
        begin_date := (Date.fromStr bv.string).toOption,
        end_date := (Date.fromStr ev.string).toOption } := by
  simp only [Label.fromXml, hav, hm, hnv, hsv, hdv, hcv, htv, hlt, hcov,
             hbv, hev, ebind_ok, epure]
  cases av <;> rfl

/-- Inversion of a successful `Label::from_xml`: every step succeeded and
the result is the record those steps build. -/
theorem label_fromXml_ok_inv {r : Reader} {l : Label}
    (h : Label.fromXml r = .ok l) :
    ∃ av m nv sv dv cv tv lt cov bv ev,
      Reader.evaluate r ".//mb:label/mb:alias-list/mb:alias/text()" = .ok av ∧
      readMbid r ".//mb:label/@id" = .ok m ∧
      Reader.evaluate r ".//mb:label/mb:name/text()" = .ok nv ∧
      Reader.evaluate r ".//mb:label/mb:sort-name/text()" = .ok sv ∧
      Reader.evaluate r ".//mb:label/mb:disambiguation/text()" = .ok dv ∧
      Reader.evaluate r ".//mb:label/mb:label-code/text()" = .ok cv ∧
      Reader.evaluate r ".//mb:label/@type" = .ok tv ∧
      LabelType.fromStr tv.string = .ok lt ∧
      Reader.evaluate r ".//mb:label/mb:country/text()" = .ok cov ∧
      Reader.evaluate r ".//mb:label/mb:life-span/mb:begin/text()" = .ok bv ∧
      Reader.evaluate r ".//mb:label/mb:life-span/mb:end/text()" = .ok ev ∧
      l = { mbid := m, name := nv.string, sort_name := sv.string,
            disambiguation := non_empty_string dv.string,
            aliases := (match av with
                        | .nodeset ns => ns.map XNode.stringVal
                        | _ => []),
            label_code := non_empty_string cv.string, label_type := lt,
            country := non_empty_string cov.string,
            ipi_code := none, isni_code := none,
            begin_date := (Date.fromStr bv.string).toOption,
            end_date := (Date.fromStr ev.string).toOption } := by
  rw [Label.fromXml] at h
  obtain ⟨av, hav, h⟩ := ebind_ok_inv h
  obtain ⟨m, hm, h⟩ := ebind_ok_inv h
  obtain ⟨nv, hnv, h⟩ := ebind_ok_inv h
  obtain ⟨sv, hsv, h⟩ := ebind_ok_inv h
  obtain ⟨dv, hdv, h⟩ := ebind_ok_inv h
  obtain ⟨cv, hcv, h⟩ := ebind_ok_inv h
  obtain ⟨tv, htv, h⟩ := ebind_ok_inv h
  obtain ⟨lt, hlt, h⟩ := ebind_ok_inv h
  obtain ⟨cov, hcov, h⟩ := ebind_ok_inv h
  obtain ⟨bv, hbv, h⟩ := ebind_ok_inv h
  obtain ⟨ev, hev, h⟩ := ebind_ok_inv h
  rw [epure] at h
  injection h with h
  exact ⟨av, m, nv, sv, dv, cv, tv, lt, cov, bv, ev, hav, hm, hnv, hsv, hdv,
         hcv, htv, hlt, hcov, hbv, hev, h.symm⟩

/-- Forward evaluation of `ReleaseMedium::from_xml` when both steps
succeed. -/
theorem medium_fromXml_eq_ok {r : Reader} {tn pv : XValue} {p : Nat}
    {tracks : List ReleaseTrack}
    (htn : Reader.evaluate r ".//mb:track-list/mb:track" = .ok tn)
    (htr : decodeNodesetOr tn ReleaseTrack.fromXml = .ok tracks)
    (hpv : Reader.evaluate r ".//mb:position/text()" = .ok pv)
    (hp : parseU16 pv.string = .ok p) :
    ReleaseMedium.fromXml r = .ok { position := p, tracks := tracks } := by
  simp [ReleaseMedium.fromXml, htn, htr, hpv, hp, ebind_ok, epure]

/-- Inversion of a successful `ReleaseMedium::from_xml`. -/
theorem medium_fromXml_ok_inv {r : Reader} {med : ReleaseMedium}
    (h : ReleaseMedium.fromXml r = .ok med) :
    ∃ tn pv p,
      Reader.evaluate r ".//mb:track-list/mb:track" = .ok tn ∧
      decodeNodesetOr tn ReleaseTrack.fromXml = .ok med.tracks ∧
      Reader.evaluate r ".//mb:position/text()" = .ok pv ∧
      parseU16 pv.string = .ok p ∧ med.position = p := by
  rw [ReleaseMedium.fromXml] at h
  obtain ⟨tn, htn, h⟩ := ebind_ok_inv h
  obtain ⟨tracks, htr, h⟩ := ebind_ok_inv h
  obtain ⟨pv, hpv, h⟩ := ebind_ok_inv h
  obtain ⟨p, hp, h⟩ := ebind_ok_inv h
  rw [epure] at h
  injection h with h
  exact ⟨tn, pv, p, htn, h ▸ htr, hpv, hp, by rw [← h]⟩

/-- Forward evaluation of `Release::from_xml` when every required step
succeeds. -/
theorem release_fromXml_eq_ok {r : Reader}
    {artsV labsV medsV titleV dateV countryV catV barV statusV packV langV
     scriptV disV : XValue}
    {arts : List ArtistRef} {labs : List LabelRef}
    {meds : List ReleaseMedium} {m : Mbid} {date : Date}
    {status : ReleaseStatus}
    (h1 : Reader.evaluate r ".//mb:release/mb:artist-credit/mb:name-credit" = .ok artsV)
    (h2 : decodeNodesetOr artsV ArtistRef.fromXml = .ok arts)
    (h3 : Reader.evaluate r ".//mb:release/mb:label-info-list/mb:label-info" = .ok labsV)
    (h4 : decodeNodesetOr labsV LabelRef.fromXml = .ok labs)
    (h5 : Reader.evaluate r ".//mb:release/mb:medium-list/mb:medium" = .ok medsV)
    (h6 : decodeNodesetOr medsV ReleaseMedium.fromXml = .ok meds)
    (h7 : readMbid r ".//mb:release/@id" = .ok m)
    (h8 : Reader.evaluate r ".//mb:release/mb:title/text()" = .ok titleV)
    (h9 : Reader.evaluate r ".//mb:release/mb:date/text()" = .ok dateV)
    (h10 : Date.fromStr dateV.string = .ok date)
    (h11 : Reader.evaluate r ".//mb:release/mb:country/text()" = .ok countryV)
    (h12 : Reader.evaluate r
      ".//mb:release/mb:label-info-list/mb:label-info/mb:catalog-number/text()" = .ok catV)
    (h13 : Reader.evaluate r ".//mb:release/mb:barcode/text()" = .ok barV)
    (h14 : Reader.evaluate r ".//mb:release/mb:status/text()" = .ok statusV)
    (h15 : ReleaseStatus.fromStr statusV.string = .ok status)
    (h16 : Reader.evaluate r ".//mb:release/mb:packaging/text()" = .ok packV)
    (h17 : Reader.evaluate r
      ".//mb:release/mb:text-representation/mb:language/text()" = .ok langV)
    (h18 : Reader.evaluate r
      ".//mb:release/mb:text-representation/mb:script/text()" = .ok scriptV)
    (h19 : Reader.evaluate r ".//mb:release/mb:disambiguation/text()" = .ok disV) :
    Release.fromXml r = .ok
      { mbid := m, title := titleV.string, artists := arts, date := date,
        country := countryV.string, labels := labs,
        catalogue_number := non_empty_string catV.string,
        barcode := non_empty_string barV.string, status := status,
        packaging := non_empty_string packV.string,
        language := langV.string, script := scriptV.string,
        disambiguation := non_empty_string disV.string,
        mediums := meds } := by
  simp only [Release.fromXml, dateField, h1, h2, h3, h4, h5, h6, h7, h8, h9,
             h10, h11, h12, h13, h14, h15, h16, h17, h18, h19, ebind_ok, epure]

/-- Inversion of a successful `Release::from_xml`: in particular the
medium list and the release date decoded successfully. -/
theorem release_fromXml_ok_inv {r : Reader} {rel : Release}
    (h : Release.fromXml r = .ok rel) :
    ∃ medsV dateV,
      Reader.evaluate r ".//mb:release/mb:medium-list/mb:medium" = .ok medsV ∧
      decodeNodesetOr medsV ReleaseMedium.fromXml = .ok rel.mediums ∧
      Reader.evaluate r ".//mb:release/mb:date/text()" = .ok dateV ∧
      Date.fromStr dateV.string = .ok rel.date := by
  rw [Release.fromXml] at h
  obtain ⟨artsV, _, h⟩ := ebind_ok_inv h
  obtain ⟨arts, _, h⟩ := ebind_ok_inv h
  obtain ⟨labsV, _, h⟩ := ebind_ok_inv h
  obtain ⟨labs, _, h⟩ := ebind_ok_inv h
  obtain ⟨medsV, hmedsV, h⟩ := ebind_ok_inv h
  obtain ⟨meds, hmeds, h⟩ := ebind_ok_inv h
  obtain ⟨m, _, h⟩ := ebind_ok_inv h
  obtain ⟨titleV, _, h⟩ := ebind_ok_inv h
  obtain ⟨dateV, hdateV, h⟩ := ebind_ok_inv h
  obtain ⟨date, hdate0, h⟩ := ebind_ok_inv h
  have hdate : Date.fromStr dateV.string = .ok date := by
    rcases hd : Date.fromStr dateV.string with e | d
    · simp [dateField, hd] at hdate0
    · simp [dateField, hd] at hdate0
      rw [hdate0]
  obtain ⟨countryV, _, h⟩ := ebind_ok_inv h
  obtain ⟨catV, _, h⟩ := ebind_ok_inv h
  obtain ⟨barV, _, h⟩ := ebind_ok_inv h
  obtain ⟨statusV, _, h⟩ := ebind_ok_inv h
  obtain ⟨status, _, h⟩ := ebind_ok_inv h
  obtain ⟨packV, _, h⟩ := ebind_ok_inv h
  obtain ⟨langV, _, h⟩ := ebind_ok_inv h
  obtain ⟨scriptV, _, h⟩ := ebind_ok_inv h
  obtain ⟨disV, _, h⟩ := ebind_ok_inv h
  rw [epure] at h
  injection h with h
  subst h
  exact ⟨medsV, dateV, hmedsV, hmeds, hdateV, hdate⟩

/-- Inversion of a successful `ReleaseTrack::from_xml`: in particular the
recording query produced a node-set with at least one node. -/
theorem track_fromXml_ok_inv {r : Reader} {t : ReleaseTrack}
    (h : ReleaseTrack.fromXml r = .ok t) :
    ∃ rv nd nds, Reader.evaluate r ".//mb:recording" = .ok rv ∧
      rv = XValue.nodeset (nd :: nds) := by
  rw [ReleaseTrack.fromXml] at h
  obtain ⟨m, _, h⟩ := ebind_ok_inv h
  obtain ⟨pv, _, h⟩ := ebind_ok_inv h
  obtain ⟨p, _, h⟩ := ebind_ok_inv h
  obtain ⟨nv, _, h⟩ := ebind_ok_inv h
  obtain ⟨n, _, h⟩ := ebind_ok_inv h
  obtain ⟨tv, _, h⟩ := ebind_ok_inv h
  obtain ⟨lv, _, h⟩ := ebind_ok_inv h
  obtain ⟨len, _, h⟩ := ebind_ok_inv h
  obtain ⟨rv, hrv, h⟩ := ebind_ok_inv h
  obtain ⟨rec, hrec, _⟩ := ebind_ok_inv h
  rcases rv with ns | s | b
  · rcases ns with _ | ⟨nd, nds⟩
    · simp [recordingField] at hrec
    · exact ⟨_, nd, nds, hrv, rfl⟩
  · simp [recordingField] at hrec
  · simp [recordingField] at hrec

/-- `non_empty_string` can never produce `Some("")`. -/
theorem non_empty_string_ne_some_empty (s : String) :
    non_empty_string s ≠ some "" := by
  rw [non_empty_string]
  by_cases hs : s.isEmpty
  · simp [hs]
  · simp [hs]
    intro hse
    rw [hse] at hs
    exact hs rfl

/-! ## Claims -/

/-- Claim C2: `Date::from_str` maps a one-component string to `Year`, a
two-component string to `Month`, a three-component string to `Day`
(components split on the dash, each parsed as an unsigned integer); any
other component count is `WrongNumberOfComponents` with that count, and a
non-numeric component is `ComponentInvalid`; in particular the five
concrete examples of the specification hold. -/
theorem c2_date_from_str :
    (Date.fromStr "2017" = .ok (Date.Year 2017)) ∧
    (Date.fromStr "2017-4" = .ok (Date.Month 2017 4)) ∧
    (Date.fromStr "2017-04-15" = .ok (Date.Day 2017 4 15)) ∧
    (Date.fromStr "1-1-1-1" = .error (.wrongNumberOfComponents 4)) ∧
    (Date.fromStr "abc" = .error (.componentInvalid ⟨.invalidDigit⟩)) ∧
    (∀ s : String,
      ((splitDash s.data).length = 1 →
        (∃ y, Date.fromStr s = .ok (Date.Year y)) ∨
        (∃ e, Date.fromStr s = .error (.componentInvalid e))) ∧
      ((splitDash s.data).length = 2 →
        (∃ y m, Date.fromStr s = .ok (Date.Month y m)) ∨
        (∃ e, Date.fromStr s = .error (.componentInvalid e))) ∧
      ((splitDash s.data).length = 3 →
        (∃ y m d, Date.fromStr s = .ok (Date.Day y m d)) ∨
        (∃ e, Date.fromStr s = .error (.componentInvalid e))) ∧
      ((splitDash s.data).length ≠ 1 → (splitDash s.data).length ≠ 2 →
       (splitDash s.data).length ≠ 3 →
        Date.fromStr s =
          .error (.wrongNumberOfComponents (splitDash s.data).length))) := by
  refine ⟨by decide, by decide, by decide, by decide, by decide, ?_⟩
  intro s
  rcases hps : splitDash s.data with _ | ⟨a, _ | ⟨b, _ | ⟨c, _ | ⟨d, rest⟩⟩⟩⟩
  · exact ⟨by simp [hps], by simp [hps], by simp [hps],
           fun _ _ _ => by simp [Date.fromStr, hps]⟩
  · refine ⟨fun _ => ?_, by simp [hps], by simp [hps], by simp [hps]⟩
    rcases hy : parseUnsigned 65535 a with e | y
    · exact Or.inr ⟨e, by simp [Date.fromStr, hps, hy]⟩
    · exact Or.inl ⟨y, by simp [Date.fromStr, hps, hy]⟩
  · refine ⟨by simp [hps], fun _ => ?_, by simp [hps], by simp [hps]⟩
    rcases hy : parseUnsigned 65535 a with e | y
    · exact Or.inr ⟨e, by simp [Date.fromStr, hps, hy]⟩
    · rcases hm : parseUnsigned 255 b with e | m
      · exact Or.inr ⟨e, by simp [Date.fromStr, hps, hy, hm]⟩
      · exact Or.inl ⟨y, m, by simp [Date.fromStr, hps, hy, hm]⟩
  · refine ⟨by simp [hps], by simp [hps], fun _ => ?_, by simp [hps]⟩
    rcases hy : parseUnsigned 65535 a with e | y
    · exact Or.inr ⟨e, by simp [Date.fromStr, hps, hy]⟩
    · rcases hm : parseUnsigned 255 b with e | m
      · exact Or.inr ⟨e, by simp [Date.fromStr, hps, hy, hm]⟩
      · rcases hd : parseUnsigned 255 c with e | d
        · exact Or.inr ⟨e, by simp [Date.fromStr, hps, hy, hm, hd]⟩
        · exact Or.inl ⟨y, m, d, by simp [Date.fromStr, hps, hy, hm, hd]⟩
  · exact ⟨by simp [hps], by simp [hps], by simp [hps],
           fun _ _ _ => by simp [Date.fromStr, hps]⟩

/-- Witness for C2 at concrete inputs. -/
theorem c2_date_from_str_witness :
    (splitDash "7-7".data).length = 2 ∧
    ((∃ y m, Date.fromStr "7-7" = .ok (Date.Month y m)) ∨
     (∃ e, Date.fromStr "7-7" = .error (.componentInvalid e))) :=
  ⟨by decide, ((c2_date_from_str.2.2.2.2.2 "7-7").2.1 (by decide))⟩

/-- Claim C9: the `Date` accessors expose the year of every variant,
return 0 for the month of a `Year` and for the day of a `Year` or
`Month`, and equality stays structural per variant, so dates of different
variants are never equal. -/
theorem c9_date_accessors :
    (∀ y, (Date.Year y).year = y ∧ (Date.Year y).month = 0 ∧
      (Date.Year y).day = 0) ∧
    (∀ y m, (Date.Month y m).year = y ∧ (Date.Month y m).month = m ∧
      (Date.Month y m).day = 0) ∧
    (∀ y m d, (Date.Day y m d).year = y ∧ (Date.Day y m d).month = m ∧
      (Date.Day y m d).day = d) ∧
    (∀ y y2 m, Date.Year y ≠ Date.Month y2 m) ∧
    (∀ y y2 m d, Date.Year y ≠ Date.Day y2 m d) ∧
    (∀ y m y2 m2 d, Date.Month y m ≠ Date.Day y2 m2 d) := by
  refine ⟨fun y => ⟨rfl, rfl, rfl⟩, fun y m => ⟨rfl, rfl, rfl⟩,
          fun y m d => ⟨rfl, rfl, rfl⟩, fun y y2 m h => ?_,
          fun y y2 m d h => ?_, fun y m y2 m2 d h => ?_⟩ <;>
    exact Date.noConfusion h

/-- Witness for C9 at concrete inputs. -/
theorem c9_date_accessors_witness :
    (Date.Month 2017 4).month = 4 ∧ (Date.Month 2017 4).day = 0 ∧
    Date.Year 2017 ≠ Date.Month 2017 4 :=
  ⟨(c9_date_accessors.2.1 2017 4).2.1, (c9_date_accessors.2.1 2017 4).2.2,
   c9_date_accessors.2.2.2.1 2017 2017 4⟩

/-- Claim C3: every closed-vocabulary enum decoder maps each defined
literal to its variant and rejects every other string with `InvalidData`;
`Gender` instead maps any unknown non-empty string to `Other(s)` (and the
empty string to `None`). -/
theorem c3_enum_vocabularies :
    ((AreaType.fromStr "Country" = .ok .Country ∧
      AreaType.fromStr "Subdivision" = .ok .Subdivision ∧
      AreaType.fromStr "County" = .ok .County ∧
      AreaType.fromStr "Muncipality" = .ok .Muncipality ∧
      AreaType.fromStr "City" = .ok .City ∧
      AreaType.fromStr "District" = .ok .District ∧
      AreaType.fromStr "Island" = .ok .Island) ∧
     (ArtistType.fromStr "Person" = .ok .Person ∧
      ArtistType.fromStr "Group" = .ok .Group ∧
      ArtistType.fromStr "Orchestra" = .ok .Orchestra ∧
      ArtistType.fromStr "Choir" = .ok .Choir ∧
      ArtistType.fromStr "Character" = .ok .Character ∧
      ArtistType.fromStr "Other" = .ok .Other) ∧
     (LabelType.fromStr "Imprint" = .ok .Imprint ∧
      LabelType.fromStr "Original Production" = .ok .ProductionOriginal ∧
      LabelType.fromStr "Bootleg Production" = .ok .ProductionBootleg ∧
      LabelType.fromStr "Reissue Production" = .ok .ProductionReissue ∧
      LabelType.fromStr "Distribution" = .ok .Distribution ∧
      LabelType.fromStr "Holding" = .ok .Holding ∧
      LabelType.fromStr "RightsSociety" = .ok .RightsSociety) ∧
     (ReleaseStatus.fromStr "Official" = .ok .Official ∧
      ReleaseStatus.fromStr "Promotional" = .ok .Promotional ∧
      ReleaseStatus.fromStr "Bootleg" = .ok .Bootleg ∧
      ReleaseStatus.fromStr "PseudoRelease" = .ok .PseudoRelease) ∧
     (ReleaseGroupPrimaryType.fromStr "Album" = .ok .Album ∧
      ReleaseGroupPrimaryType.fromStr "Single" = .ok .Single ∧
      ReleaseGroupPrimaryType.fromStr "EP" = .ok .EP ∧
      ReleaseGroupPrimaryType.fromStr "Broadcast" = .ok .Broadcast ∧
      ReleaseGroupPrimaryType.fromStr "Other" = .ok .Other) ∧
     (ReleaseGroupSecondaryType.fromStr "Compilation" = .ok .Compilation ∧
      ReleaseGroupSecondaryType.fromStr "Soundtrack" = .ok .Soundtrack ∧
      ReleaseGroupSecondaryType.fromStr "Spokenword" = .ok .Spokenword ∧
      ReleaseGroupSecondaryType.fromStr "Interview" = .ok .Interview ∧
      ReleaseGroupSecondaryType.fromStr "Audiobook" = .ok .Audiobook ∧
      ReleaseGroupSecondaryType.fromStr "Live" = .ok .Live ∧
      ReleaseGroupSecondaryType.fromStr "Remix" = .ok .Remix ∧
      ReleaseGroupSecondaryType.fromStr "DJ-mix" = .ok .DjMix ∧
      ReleaseGroupSecondaryType.fromStr "Mixtape/Street" = .ok .MixtapeStreet) ∧
     (Gender.fromStr "Female" = some .Female ∧
      Gender.fromStr "Male" = some .Male ∧
      Gender.fromStr "" = none)) ∧
    (∀ s, s ≠ "Country" → s ≠ "Subdivision" → s ≠ "County" →
      s ≠ "Muncipality" → s ≠ "City" → s ≠ "District" → s ≠ "Island" →
      ∃ msg, AreaType.fromStr s = .error (.invalidData msg)) ∧
    (∀ s, s ≠ "Person" → s ≠ "Group" → s ≠ "Orchestra" → s ≠ "Choir" →
      s ≠ "Character" → s ≠ "Other" →
      ∃ msg, ArtistType.fromStr s = .error (.invalidData msg)) ∧
    (∀ s, s ≠ "Imprint" → s ≠ "Original Production" →
      s ≠ "Bootleg Production" → s ≠ "Reissue Production" →
      s ≠ "Distribution" → s ≠ "Holding" → s ≠ "RightsSociety" →
      ∃ msg, LabelType.fromStr s = .error (.invalidData msg)) ∧
    (∀ s, s ≠ "Official" → s ≠ "Promotional" → s ≠ "Bootleg" →
      s ≠ "PseudoRelease" →
      ∃ msg, ReleaseStatus.fromStr s = .error (.invalidData msg)) ∧
    (∀ s, s ≠ "Album" → s ≠ "Single" → s ≠ "EP" → s ≠ "Broadcast" →
      s ≠ "Other" →
      ∃ msg, ReleaseGroupPrimaryType.fromStr s = .error (.invalidData msg)) ∧
    (∀ s, s ≠ "Compilation" → s ≠ "Soundtrack" → s ≠ "Spokenword" →
      s ≠ "Interview" → s ≠ "Audiobook" → s ≠ "Live" → s ≠ "Remix" →
      s ≠ "DJ-mix" → s ≠ "Mixtape/Street" →
      ∃ msg, ReleaseGroupSecondaryType.fromStr s = .error (.invalidData msg)) ∧
    (∀ s, s ≠ "Female" → s ≠ "Male" → s ≠ "" →
      Gender.fromStr s = some (.Other s)) := by
  refine ⟨by refine ⟨?_, ?_, ?_, ?_, ?_, ?_, ?_⟩ <;> decide,
          ?_, ?_, ?_, ?_, ?_, ?_, ?_⟩
  · intro s h1 h2 h3 h4 h5 h6 h7
    exact ⟨"Invalid AreaType: " ++ s,
      by simp [AreaType.fromStr, h1, h2, h3, h4, h5, h6, h7]⟩
  · intro s h1 h2 h3 h4 h5 h6
    exact ⟨"Unknown artist type: " ++ s,
      by simp [ArtistType.fromStr, h1, h2, h3, h4, h5, h6]⟩
  · intro s h1 h2 h3 h4 h5 h6 h7
    exact ⟨"Invalid LabelType: " ++ s,
      by simp [LabelType.fromStr, h1, h2, h3, h4, h5, h6, h7]⟩
  · intro s h1 h2 h3 h4
    exact ⟨"Unknown ReleaseStatus: " ++ s,
      by simp [ReleaseStatus.fromStr, h1, h2, h3, h4]⟩
  · intro s h1 h2 h3 h4 h5
    exact ⟨"Unknown ReleaseGroupPrimaryType: " ++ s,
      by simp [ReleaseGroupPrimaryType.fromStr, h1, h2, h3, h4, h5]⟩
  · intro s h1 h2 h3 h4 h5 h6 h7 h8 h9
    exact ⟨"Unknown ReleaseSecondaryPrimaryType: " ++ s,
      by simp [ReleaseGroupSecondaryType.fromStr, h1, h2, h3, h4, h5,
               h6, h7, h8, h9]⟩
  · intro s h1 h2 h3
    simp [Gender.fromStr, h1, h2, h3]

/-- Witness for C3 at concrete out-of-vocabulary strings. -/
theorem c3_enum_vocabularies_witness :
    (∃ msg, AreaType.fromStr "Planet" = .error (.invalidData msg)) ∧
    (∃ msg, ArtistType.fromStr "Robot" = .error (.invalidData msg)) ∧
    (∃ msg, LabelType.fromStr "ProductionOriginal" = .error (.invalidData msg)) ∧
    (∃ msg, ReleaseStatus.fromStr "Cancelled" = .error (.invalidData msg)) ∧
    (∃ msg, ReleaseGroupPrimaryType.fromStr "Mixtape" = .error (.invalidData msg)) ∧
    (∃ msg, ReleaseGroupSecondaryType.fromStr "Demo" = .error (.invalidData msg)) ∧
    Gender.fromStr "Nonbinary" = some (.Other "Nonbinary") :=
  ⟨c3_enum_vocabularies.2.1 "Planet" (by decide) (by decide) (by decide)
     (by decide) (by decide) (by decide) (by decide),
   c3_enum_vocabularies.2.2.1 "Robot" (by decide) (by decide) (by decide)
     (by decide) (by decide) (by decide),
   c3_enum_vocabularies.2.2.2.1 "ProductionOriginal" (by decide) (by decide)
     (by decide) (by decide) (by decide) (by decide) (by decide),
   c3_enum_vocabularies.2.2.2.2.1 "Cancelled" (by decide) (by decide)
     (by decide) (by decide),
   c3_enum_vocabularies.2.2.2.2.2.1 "Mixtape" (by decide) (by decide)
     (by decide) (by decide) (by decide),
   c3_enum_vocabularies.2.2.2.2.2.2.1 "Demo" (by decide) (by decide)
     (by decide) (by decide) (by decide) (by decide) (by decide) (by decide)
     (by decide),
   c3_enum_vocabularies.2.2.2.2.2.2.2 "Nonbinary" (by decide) (by decide)
     (by decide)⟩

/-- Claim C4: optional strings read through
`non_empty_string`/`read_nstring` decode an absent element (empty
node-set) and a present-but-text-empty element both to `None`, and the
decoded value is never `Some("")`; `non_empty_string` is `None` exactly
on the empty string and the identity wrapped in `Some` otherwise. -/
theorem c4_optional_strings :
    (∀ s : String, (non_empty_string s = none ↔ s = "") ∧
      (s ≠ "" → non_empty_string s = some s)) ∧
    (∀ (r : Reader) e v, Reader.evaluate r e = .ok v → v.string = "" →
      readNstring r e = .ok none) ∧
    (∀ (r : Reader) e, Reader.evaluate r e = .ok (.nodeset []) →
      readNstring r e = .ok none) ∧
    (∀ (r : Reader) e o, readNstring r e = .ok o → o ≠ some "") := by
  have hchar : ∀ s : String, (non_empty_string s = none ↔ s = "") ∧
      (s ≠ "" → non_empty_string s = some s) := by
    intro s
    by_cases hs : s = ""
    · subst hs
      exact ⟨by decide, fun h => absurd rfl h⟩
    · have hne : s.isEmpty = false := by
        rcases h : s.isEmpty with _ | _
        · rfl
        · exact absurd ((String.isEmpty_iff s).mp h) hs
      exact ⟨by simp [non_empty_string, hne, hs], fun _ => by
        simp [non_empty_string, hne]⟩
  have hempty : ∀ (r : Reader) e v, Reader.evaluate r e = .ok v →
      v.string = "" → readNstring r e = .ok none := by
    intro r e v hv hs
    rw [readNstring, hv, ebind_ok, hs]
    rw [show non_empty_string "" = none from by decide]
    rfl
  refine ⟨hchar, hempty, ?_, ?_⟩
  · intro r e hv
    exact hempty r e (.nodeset []) hv rfl
  · intro r e o h
    rw [readNstring] at h
    obtain ⟨v, hv, h2⟩ := ebind_ok_inv h
    rw [epure] at h2
    injection h2 with h2
    rw [← h2]
    exact non_empty_string_ne_some_empty v.string

/-- Witness for C4 at a concrete reader and strings. -/
theorem c4_optional_strings_witness :
    (non_empty_string "GB" = some "GB") ∧
    (readNstring [("q", .ok (.str ""))] "q" = .ok none) ∧
    (readNstring [] "q" = .ok none) :=
  ⟨(c4_optional_strings.1 "GB").2 (by decide),
   c4_optional_strings.2.1 [("q", .ok (.str ""))] "q" (.str "") rfl rfl,
   c4_optional_strings.2.2.1 [] "q" rfl⟩

/-- Claim C5: `read_vec` yields `Ok([])` whenever the expression
evaluates to anything other than a node-set (including the no-match empty
node-set), and on a node-set decodes each node in document order,
returning all items in order when every node decodes and the first
failure otherwise (no partial result). -/
theorem c5_read_vec (α : Type) :
    (∀ (r : Reader) e (dec : Reader → Except ParseError α) v,
      Reader.evaluate r e = .ok v → (∀ ns, v ≠ .nodeset ns) →
      readVec r e dec = .ok []) ∧
    (∀ (r : Reader) e (dec : Reader → Except ParseError α),
      Reader.evaluate r e = .ok (.nodeset []) → readVec r e dec = .ok []) ∧
    (∀ (r : Reader) e (dec : Reader → Except ParseError α) ns
      (f : XNode → α), Reader.evaluate r e = .ok (.nodeset ns) →
      (∀ n ∈ ns, dec n.queries = .ok (f n)) →
      readVec r e dec = .ok (ns.map f)) ∧
    (∀ (r : Reader) e (dec : Reader → Except ParseError α) ns1 n ns2 err,
      Reader.evaluate r e = .ok (.nodeset (ns1 ++ n :: ns2)) →
      (∀ m ∈ ns1, ∃ y, dec m.queries = .ok y) →
      dec n.queries = .error err →
      readVec r e dec = .error err) := by
  refine ⟨?_, ?_, ?_, ?_⟩
  · intro r e dec v hv hnot
    rw [readVec, hv, ebind_ok]
    rcases v with ns | s | b
    · exact absurd rfl (hnot ns)
    · rfl
    · rfl
  · intro r e dec hv
    rw [readVec, hv, ebind_ok]
    rfl
  · intro r e dec ns f hv hf
    rw [readVec, hv, ebind_ok]
    exact mapExcept_map_ok fun n hn => hf n hn
  · intro r e dec ns1 n ns2 err hv hok herr
    rw [readVec, hv, ebind_ok]
    exact mapExcept_first_error hok herr

/-- Witness for C5 at a concrete reader with one decodable and one
failing node. -/
theorem c5_read_vec_witness :
    (readVec [("q", .ok (.str "x"))] "q"
      (fun r2 => readString r2 "inner") = .ok []) ∧
    (readVec [("q", .ok (.nodeset []))] "q"
      (fun r2 => readString r2 "inner") = .ok []) ∧
    (readVec [("q", .ok (.nodeset [.node [("inner", .ok (.str "a"))] ""]))] "q"
      (fun r2 => readString r2 "inner") = .ok ["a"]) ∧
    (readVec [("q", .ok (.nodeset
        [.node [("inner", .ok (.str "a"))] "",
         .node [("inner", .error (.xpathError "boom"))] ""]))] "q"
      (fun r2 => readString r2 "inner") = .error (.xpathError "boom")) := by
  refine ⟨?_, ?_, ?_, ?_⟩
  · exact (c5_read_vec String).1 [("q", .ok (.str "x"))] "q" _ (.str "x")
      rfl (fun ns h => by cases h)
  · exact (c5_read_vec String).2.1 [("q", .ok (.nodeset []))] "q" _ rfl
  · exact (c5_read_vec String).2.2.1
      [("q", .ok (.nodeset [.node [("inner", .ok (.str "a"))] ""]))] "q"
      (fun r2 => readString r2 "inner")
      [.node [("inner", .ok (.str "a"))] ""] (fun _ => "a") rfl
      (fun n hn => by rw [List.mem_singleton.mp hn]; rfl)
  · exact (c5_read_vec String).2.2.2
      [("q", .ok (.nodeset
        [.node [("inner", .ok (.str "a"))] "",
         .node [("inner", .error (.xpathError "boom"))] ""]))] "q"
      (fun r2 => readString r2 "inner")
      [.node [("inner", .ok (.str "a"))] ""]
      (.node [("inner", .error (.xpathError "boom"))] "") []
      (.xpathError "boom")
      rfl (fun m hm => ⟨"a", by rw [List.mem_singleton.mp hm]; rfl⟩) rfl

/-- Claim C1: a track element whose recording query yields no node makes
`ReleaseTrack::from_xml` fail with `InvalidData` (when the earlier track
fields decode), any failing track aborts the enclosing
`ReleaseMedium::from_xml`, and any failing medium aborts
`Release::from_xml` — no `Release` value omitting that track is ever
produced. -/
theorem c1_missing_recording_fails :
    (∀ (r : Reader) m pv p nv n tv lv len rv,
      readMbid r ".//@id" = .ok m →
      Reader.evaluate r ".//mb:position/text()" = .ok pv →
      parseU16 pv.string = .ok p →
      Reader.evaluate r ".//mb:number/text()" = .ok nv →
      parseU16 nv.string = .ok n →
      Reader.evaluate r ".//mb:title/text()" = .ok tv →
      Reader.evaluate r ".//mb:length/text()" = .ok lv →
      parseU64 lv.string = .ok len →
      Reader.evaluate r ".//mb:recording" = .ok rv →
      (∀ nd nds, rv ≠ .nodeset (nd :: nds)) →
      ReleaseTrack.fromXml r =
        .error (.invalidData
          ("ReleaseTrack without RecordingRef, mbid: " ++ m))) ∧
    (∀ (r : Reader) ns tn e,
      Reader.evaluate r ".//mb:track-list/mb:track" = .ok (.nodeset ns) →
      tn ∈ ns → ReleaseTrack.fromXml tn.queries = .error e →
      ∃ e2, ReleaseMedium.fromXml r = .error e2) ∧
    (∀ (r : Reader) ms mn e,
      Reader.evaluate r ".//mb:release/mb:medium-list/mb:medium" =
        .ok (.nodeset ms) →
      mn ∈ ms → ReleaseMedium.fromXml mn.queries = .error e →
      ∃ e2, Release.fromXml r = .error e2) := by
  refine ⟨?_, ?_, ?_⟩
  · intro r m pv p nv n tv lv len rv h1 h2 h3 h4 h5 h6 h7 h8 h9 h10
    rcases rv with ns | s | b
    · rcases ns with _ | ⟨nd, nds⟩
      · simp only [ReleaseTrack.fromXml, h1, h2, h3, h4, h5, h6, h7, h8, h9,
                   ebind_ok, recordingField, ebind_error]
      · exact absurd rfl (h10 nd nds)
    · simp only [ReleaseTrack.fromXml, h1, h2, h3, h4, h5, h6, h7, h8, h9,
                 ebind_ok, recordingField, ebind_error]
    · simp only [ReleaseTrack.fromXml, h1, h2, h3, h4, h5, h6, h7, h8, h9,
                 ebind_ok, recordingField, ebind_error]
  · intro r ns tn e hev htn herr
    rcases hmed : ReleaseMedium.fromXml r with e2 | med
    · exact ⟨e2, rfl⟩
    · obtain ⟨tnv, pv, p, htnv, hdec, _, _, _⟩ := medium_fromXml_ok_inv hmed
      rw [hev] at htnv
      injection htnv with htnv
      rw [← htnv] at hdec
      simp only [decodeNodesetOr] at hdec
      obtain ⟨y, hy⟩ := mapExcept_ok_forall hdec tn htn
      rw [herr] at hy
      cases hy
  · intro r ms mn e hev hmn herr
    rcases hrel : Release.fromXml r with e2 | rel
    · exact ⟨e2, rfl⟩
    · obtain ⟨medsV, dateV, hmedsV, hmeds, _, _⟩ := release_fromXml_ok_inv hrel
      rw [hev] at hmedsV
      injection hmedsV with hmedsV
      rw [← hmedsV] at hmeds
      simp only [decodeNodesetOr] at hmeds
      obtain ⟨y, hy⟩ := mapExcept_ok_forall hmeds mn hmn
      rw [herr] at hy
      cases hy

/-- Witness for C1 on concrete readers: the track without a recording
fails with `InvalidData`, and its medium and release decoders fail too. -/
theorem c1_missing_recording_fails_witness :
    (ReleaseTrack.fromXml noRecordingTrackReader =
      .error (.invalidData ("ReleaseTrack without RecordingRef, mbid: " ++
        "ac898be7-2965-4d17-9ac8-48d45852d73c"))) ∧
    (∃ e2, ReleaseMedium.fromXml noRecordingMediumReader = .error e2) ∧
    (∃ e2, Release.fromXml noRecordingReleaseReader = .error e2) := by
  have htrack : ReleaseTrack.fromXml noRecordingTrackReader =
      .error (.invalidData ("ReleaseTrack without RecordingRef, mbid: " ++
        "ac898be7-2965-4d17-9ac8-48d45852d73c")) :=
    c1_missing_recording_fails.1 noRecordingTrackReader
      "ac898be7-2965-4d17-9ac8-48d45852d73c"
      (.str "1") 1 (.str "1") 1 (.nodeset []) (.str "232000") 232000
      (.nodeset []) rfl rfl (by decide) rfl (by decide) rfl rfl (by decide)
      rfl (fun nd nds h => by injection h with h2; exact List.noConfusion h2)
  have hmed : ∃ e2, ReleaseMedium.fromXml noRecordingMediumReader =
      .error e2 :=
    c1_missing_recording_fails.2.1 noRecordingMediumReader
      [.node noRecordingTrackReader ""] (.node noRecordingTrackReader "")
      (.invalidData ("ReleaseTrack without RecordingRef, mbid: " ++
        "ac898be7-2965-4d17-9ac8-48d45852d73c"))
      rfl (List.mem_singleton.mpr rfl) htrack
  obtain ⟨e2, hmed2⟩ := hmed
  exact ⟨htrack, ⟨e2, hmed2⟩,
    c1_missing_recording_fails.2.2 noRecordingReleaseReader
      [.node noRecordingMediumReader ""] (.node noRecordingMediumReader "")
      e2 rfl (List.mem_singleton.mpr rfl) hmed2⟩

/-- Claim C6: node-set reads preserve document order — a medium whose
track nodes all decode yields exactly those tracks in document order, and
a decodable release yields its mediums in document order (no
re-sorting). -/
theorem c6_document_order :
    (∀ (r : Reader) ns (f : XNode → ReleaseTrack) pv p,
      Reader.evaluate r ".//mb:track-list/mb:track" = .ok (.nodeset ns) →
      (∀ n ∈ ns, ReleaseTrack.fromXml n.queries = .ok (f n)) →
      Reader.evaluate r ".//mb:position/text()" = .ok pv →
      parseU16 pv.string = .ok p →
      ReleaseMedium.fromXml r = .ok { position := p, tracks := ns.map f }) ∧
    (∀ (r : Reader) ms (g : XNode → ReleaseMedium) artsV arts labsV labs
      m titleV dateV date countryV catV barV statusV status packV langV
      scriptV disV,
      Reader.evaluate r ".//mb:release/mb:artist-credit/mb:name-credit" =
        .ok artsV →
      decodeNodesetOr artsV ArtistRef.fromXml = .ok arts →
      Reader.evaluate r ".//mb:release/mb:label-info-list/mb:label-info" =
        .ok labsV →
      decodeNodesetOr labsV LabelRef.fromXml = .ok labs →
      Reader.evaluate r ".//mb:release/mb:medium-list/mb:medium" =
        .ok (.nodeset ms) →
      (∀ n ∈ ms, ReleaseMedium.fromXml n.queries = .ok (g n)) →
      readMbid r ".//mb:release/@id" = .ok m →
      Reader.evaluate r ".//mb:release/mb:title/text()" = .ok titleV →
      Reader.evaluate r ".//mb:release/mb:date/text()" = .ok dateV →
      Date.fromStr dateV.string = .ok date →
      Reader.evaluate r ".//mb:release/mb:country/text()" = .ok countryV →
      Reader.evaluate r
        ".//mb:release/mb:label-info-list/mb:label-info/mb:catalog-number/text()" =
        .ok catV →
      Reader.evaluate r ".//mb:release/mb:barcode/text()" = .ok barV →
      Reader.evaluate r ".//mb:release/mb:status/text()" = .ok statusV →
      ReleaseStatus.fromStr statusV.string = .ok status →
      Reader.evaluate r ".//mb:release/mb:packaging/text()" = .ok packV →
      Reader.evaluate r
        ".//mb:release/mb:text-representation/mb:language/text()" = .ok langV →
      Reader.evaluate r
        ".//mb:release/mb:text-representation/mb:script/text()" = .ok scriptV →
      Reader.evaluate r ".//mb:release/mb:disambiguation/text()" = .ok disV →
      ∃ rel, Release.fromXml r = .ok rel ∧ rel.mediums = ms.map g) := by
  constructor
  · intro r ns f pv p hns hf hpv hp
    exact medium_fromXml_eq_ok hns
      (by simp only [decodeNodesetOr]
          exact mapExcept_map_ok fun n hn => hf n hn) hpv hp
  · intro r ms g artsV arts labsV labs m titleV dateV date countryV catV
      barV statusV status packV langV scriptV disV
      h1 h2 h3 h4 h5 h6 h7 h8 h9 h10 h11 h12 h13 h14 h15 h16 h17 h18 h19
    refine ⟨_, release_fromXml_eq_ok h1 h2 h3 h4 h5 ?_ h7 h8 h9 h10 h11 h12
      h13 h14 h15 h16 h17 h18 h19, rfl⟩
    simp only [decodeNodesetOr]
    exact mapExcept_map_ok fun n hn => h6 n hn

/-- Witness for C6: a medium with two track nodes decodes to the two
tracks in document order, and the sample release carries its medium
list. -/
theorem c6_document_order_witness :
    (ReleaseMedium.fromXml sampleMediumReader =
      .ok { position := 1, tracks := [sampleTrack, sampleTrack] }) ∧
    (∃ rel, Release.fromXml sampleReleaseReader = .ok rel ∧
      rel.mediums =
        [{ position := 1, tracks := [sampleTrack, sampleTrack] }]) := by
  have htr : ∀ n ∈ [XNode.node sampleTrackReader "",
      XNode.node sampleTrackReader ""],
      ReleaseTrack.fromXml n.queries = .ok sampleTrack := by
    intro n hn
    rcases List.mem_cons.mp hn with h | h
    · rw [h]; decide
    · rw [List.mem_singleton.mp h]; decide
  have hmed : ReleaseMedium.fromXml sampleMediumReader =
      .ok { position := 1, tracks := [sampleTrack, sampleTrack] } :=
    c6_document_order.1 sampleMediumReader
      [.node sampleTrackReader "", .node sampleTrackReader ""]
      (fun _ => sampleTrack) (.str "1") 1 rfl htr rfl (by decide)
  refine ⟨hmed, ?_⟩
  exact c6_document_order.2 sampleReleaseReader
    [.node sampleMediumReader ""]
    (fun _ => { position := 1, tracks := [sampleTrack, sampleTrack] })
    (.nodeset []) [] (.nodeset []) []
    "d1881a4c-0188-4f0f-a2e7-4e7849aec109"
    (.nodeset []) (.str "2015-10-04") (Date.Day 2015 10 4)
    (.nodeset []) (.nodeset []) (.nodeset []) (.str "Official") .Official
    (.nodeset []) (.nodeset []) (.nodeset []) (.nodeset [])
    rfl rfl rfl rfl rfl
    (fun n hn => by rw [List.mem_singleton.mp hn]; exact hmed)
    rfl rfl rfl (by decide) rfl rfl rfl rfl (by decide) rfl rfl rfl rfl

/-- Counterexample to C7 as stated: a release document that is fully
decodable except for its malformed date text makes the whole
`Release::from_xml` decode fail (the identical reader with a well-formed
date decodes successfully, isolating the date as the cause). -/
theorem c7_release_date_counterexample :
    (Release.fromXml wellFormedDateReleaseReader = .ok
      { mbid := "ed118c5f-d940-4b52-a37b-b1a205374abe", title := "",
        artists := [], date := Date.Day 1992 9 21, country := "",
        labels := [], catalogue_number := none, barcode := none,
        status := .Official, packaging := none, language := "",
        script := "", disambiguation := none, mediums := [] }) ∧
    (Release.fromXml malformedDateReleaseReader =
      .error (.parseDateError (.wrongNumberOfComponents 4))) := by
  constructor
  · decide
  · decide

/-- Claim C7 (amended): a malformed life-span begin or end text in
`Label::from_xml` is coerced to `None` (the decode still succeeds when
the rest of the document decodes), but `Release::from_xml` treats its
date as required — a malformed release date text aborts the whole
decode with an error. -/
theorem c7_date_leniency :
    (∀ (r : Reader) av m nv sv dv cv tv lt cov bv ev e1 e2,
      Reader.evaluate r ".//mb:label/mb:alias-list/mb:alias/text()" = .ok av →
      readMbid r ".//mb:label/@id" = .ok m →
      Reader.evaluate r ".//mb:label/mb:name/text()" = .ok nv →
      Reader.evaluate r ".//mb:label/mb:sort-name/text()" = .ok sv →
      Reader.evaluate r ".//mb:label/mb:disambiguation/text()" = .ok dv →
      Reader.evaluate r ".//mb:label/mb:label-code/text()" = .ok cv →
      Reader.evaluate r ".//mb:label/@type" = .ok tv →
      LabelType.fromStr tv.string = .ok lt →
      Reader.evaluate r ".//mb:label/mb:country/text()" = .ok cov →
      Reader.evaluate r ".//mb:label/mb:life-span/mb:begin/text()" = .ok bv →
      Date.fromStr bv.string = .error e1 →
      Reader.evaluate r ".//mb:label/mb:life-span/mb:end/text()" = .ok ev →
      Date.fromStr ev.string = .error e2 →
      ∃ l, Label.fromXml r = .ok l ∧ l.begin_date = none ∧
        l.end_date = none) ∧
    (∀ (r : Reader) dv e,
      Reader.evaluate r ".//mb:release/mb:date/text()" = .ok dv →
      Date.fromStr dv.string = .error e →
      ∃ er, Release.fromXml r = .error er) := by
  constructor
  · intro r av m nv sv dv cv tv lt cov bv ev e1 e2 hav hm hnv hsv hdv hcv
      htv hlt hcov hbv he1 hev he2
    refine ⟨_, label_fromXml_eq_ok hav hm hnv hsv hdv hcv htv hlt hcov hbv
      hev, ?_, ?_⟩
    · simp only [he1, Except.toOption]
    · simp only [he2, Except.toOption]
  · intro r dv e hdv he
    rcases hrel : Release.fromXml r with er | rel
    · exact ⟨er, rfl⟩
    · obtain ⟨medsV, dateV, _, _, hdateV, hdate⟩ := release_fromXml_ok_inv hrel
      rw [hdv] at hdateV
      injection hdateV with hdateV
      rw [← hdateV] at hdate
      rw [he] at hdate
      cases hdate

/-- Witness for C7 (amended) on concrete readers: the label with
malformed life-span texts decodes with both dates `None`; the release
with a malformed date fails. -/
theorem c7_date_leniency_witness :
    (∃ l, Label.fromXml malformedLifeSpanLabelReader = .ok l ∧
      l.begin_date = none ∧ l.end_date = none) ∧
    (∃ er, Release.fromXml malformedDateReleaseReader = .error er) :=
  ⟨c7_date_leniency.1 malformedLifeSpanLabelReader
     (.nodeset []) "c029628b-6633-439e-bcee-ed02e8a338f7"
     (.nodeset []) (.nodeset []) (.nodeset []) (.nodeset [])
     (.str "Imprint") .Imprint (.nodeset [])
     (.str "19xx") (.str "1-2-3-4")
     (.componentInvalid ⟨.invalidDigit⟩) (.wrongNumberOfComponents 4)
     rfl rfl rfl rfl rfl rfl rfl (by decide) rfl rfl (by decide) rfl
     (by decide),
   c7_date_leniency.2 malformedDateReleaseReader (.str "1-1-1-1")
     (.wrongNumberOfComponents 4) rfl (by decide)⟩

/-- Claim C8: `LabelType::from_str` maps the server literals with spaces
to the production variants (not the Rust identifier spellings, which are
rejected), and a label element whose type attribute reads
`Original Production` decodes to a label of type `ProductionOriginal`. -/
theorem c8_label_type_literals :
    (LabelType.fromStr "Original Production" = .ok .ProductionOriginal) ∧
    (LabelType.fromStr "Bootleg Production" = .ok .ProductionBootleg) ∧
    (LabelType.fromStr "Reissue Production" = .ok .ProductionReissue) ∧
    (∃ msg, LabelType.fromStr "ProductionOriginal" =
      .error (.invalidData msg)) ∧
    (∀ (r : Reader) l tv, Label.fromXml r = .ok l →
      Reader.evaluate r ".//mb:label/@type" = .ok tv →
      tv.string = "Original Production" →
      l.label_type = .ProductionOriginal) := by
  refine ⟨by decide, by decide, by decide,
    ⟨"Invalid LabelType: ProductionOriginal", by decide⟩, ?_⟩
  intro r l tv h htv hts
  obtain ⟨av, m, nv, sv, dv, cv, tv2, lt, cov, bv, ev, _, _, _, _, _, _,
    htv2, hlt, _, _, _, hrec⟩ := label_fromXml_ok_inv h
  rw [htv] at htv2
  injection htv2 with htv2
  rw [← htv2, hts] at hlt
  have hop : LabelType.fromStr "Original Production" =
      .ok .ProductionOriginal := by decide
  rw [hop] at hlt
  injection hlt with hlt
  rw [hrec, ← hlt]

/-- Witness for C8: the EMI label document decodes with type
`ProductionOriginal`. -/
theorem c8_label_type_literals_witness :
    Label.fromXml emiLabelReader = .ok emiLabel ∧
    emiLabel.label_type = .ProductionOriginal :=
  have h : Label.fromXml emiLabelReader = .ok emiLabel := by decide
  ⟨h, c8_label_type_literals.2.2.2.2 emiLabelReader emiLabel
    (.str "Original Production") h rfl rfl⟩

/-- Claim C10: every successful `Label::from_xml` hardcodes `ipi_code`
and `isni_code` to `None`, whatever the document holds. -/
theorem c10_label_codes_none :
    ∀ (r : Reader) l, Label.fromXml r = .ok l →
      l.ipi_code = none ∧ l.isni_code = none := by
  intro r l h
  obtain ⟨av, m, nv, sv, dv, cv, tv, lt, cov, bv, ev, _, _, _, _, _, _, _,
    _, _, _, _, hrec⟩ := label_fromXml_ok_inv h
  rw [hrec]
  exact ⟨rfl, rfl⟩

/-- Witness for C10: a label document carrying ipi and isni content
still decodes with both code fields `None`. -/
theorem c10_label_codes_none_witness :
    Label.fromXml ipiLabelReader = .ok ipiLabel ∧
    ipiLabel.ipi_code = none ∧ ipiLabel.isni_code = none :=
  have h : Label.fromXml ipiLabelReader = .ok ipiLabel := by decide
  ⟨h, (c10_label_codes_none ipiLabelReader ipiLabel h).1,
    (c10_label_codes_none ipiLabelReader ipiLabel h).2⟩

end MB
